import Mathlib

/-!
Verification development for the Line-us Inkscape plugin
(`src/line-us/lus_parser_sender.py`).

The Python source is shallowly embedded: coordinates (Python floats used for
exact comparisons and additive bookkeeping) are modelled as rationals `ℚ`,
Python integers as `Int`/`Nat`, and fallible Python code as `Except PyErr`.
The file targets Python 3 semantics: the plugin is Python-3-only (it uses
f-strings, line 1027, and the Inkscape 1.x `inkex` API).
-/

/-- Exceptions raised by the Python code paths modelled here. -/
inductive PyErr
  | valueError
  | typeError
  | indexError
  | attributeError
deriving DecidableEq, Repr

deriving instance DecidableEq for Except

/-- Python `str.strip()` / `lstrip()`-style whitespace trimming and
`str.split()` word splitting and the first-character read `s[0]`, modelled
structurally over the character list of the string. -/
def pyStrip (s : String) : String :=
  ⟨((s.data.dropWhile Char.isWhitespace).reverse.dropWhile Char.isWhitespace).reverse⟩

/-- Python `str.split()` with no argument: split on whitespace runs, dropping
empty fields. -/
def pySplitWs (s : String) : List String :=
  ((s.data.splitOnP Char.isWhitespace).filter (fun t => t ≠ [])).map (fun t => ⟨t⟩)

/-- First character of a Python string (`s[0]`); the callers modelled here
only read it from nonempty strings (the response read loop yields only
nonempty responses), so the default is never produced. -/
def pyFront (s : String) : Char :=
  s.data.headD '\x00'

/-- A 2D point with rational coordinates. -/
structure Pt where
  x : ℚ
  y : ℚ
deriving DecidableEq, Repr

/-- A 2x3 affine matrix `[[a, b, c], [d, e, f]]`, as the source's transform
matrices (for instance `self.svg_transform = [[1.0,0.0,0.0],[0.0,1.0,0.0]]`,
line 217). -/
structure Mat where
  a : ℚ
  b : ℚ
  c : ℚ
  d : ℚ
  e : ℚ
  f : ℚ
deriving DecidableEq, Repr

/-- Apply an affine matrix to a point. -/
def applyMat (m : Mat) (p : Pt) : Pt :=
  ⟨m.a * p.x + m.b * p.y + m.c, m.d * p.x + m.e * p.y + m.f⟩

/-- The identity transform, the source's default `matCurrent` (line 443). -/
def matIdentity : Mat := ⟨1, 0, 0, 0, 1, 0⟩

/-- Python `str.isdigit` on a list of characters: true iff the string is
nonempty and every character is a (decimal ASCII) digit. -/
def pyIsDigitStr (l : List Char) : Bool :=
  decide (l ≠ []) && l.all Char.isDigit

/-- Numeric value of a digit string, most significant digit first. Models
`int(float(s))` of the source for digit-only strings `s` (exact at the
magnitudes a layer label can carry). -/
def digitsToNat (l : List Char) : Nat :=
  l.foldl (fun a c => 10 * a + (c.toNat - 48)) 0

/-- The digit-prefix scan loop of `do_we_plot_layer` (source lines 808-816):
`while string_pos <= MaxLength`, testing `current_layer_name[:string_pos]`
with `str.isdigit` and remembering the longest digit-only head seen. The
`while` bound `string_pos <= MaxLength` is carried as the fuel
`MaxLength + 1 - string_pos`, which drops by one exactly when `string_pos`
is incremented. -/
def dwplLoop (s : List Char) (fuel : Nat) (pos : Nat) (temp : List Char) : List Char :=
  match fuel with
  | 0 => temp
  | f + 1 =>
    if pyIsDigitStr (s.take pos) then
      dwplLoop s f (pos + 1) (s.take pos)
    else temp

/-- Source `do_we_plot_layer` (lines 798-824): left-strip the label, scan the
longest leading digit run (`temp_num_string` starts as the sentinel `'x'`),
and if that run is a digit string compare its numeric value with the selected
layer `self.svg_layer`. Returns whether the layer is matched (the source then
sets `plot_current_layer = True` and increments `layers_plotted`);
`int(float(temp_num_string))` is modelled as the exact value of the digit
string. -/
def do_we_plot_layer (svgLayer : Int) (label : String) : Bool :=
  let s := label.data.dropWhile Char.isWhitespace
  let temp := dwplLoop s s.length 1 ['x']
  if pyIsDigitStr temp then decide (svgLayer = (digitsToNat temp : Int)) else false

/-- The leading decimal-digit run of a left-stripped label: the reading of
layer labels the spec describes. -/
def leadingDigitRun (label : String) : List Char :=
  (label.data.dropWhile Char.isWhitespace).takeWhile Char.isDigit

/-- A `CubicSuperPath` triple `[ctrl_before, point, ctrl_after]` as the source
manipulates it inside `subdivide_cubic_path` (`sp[i][0]`, `sp[i][1]`,
`sp[i][2]`). -/
structure Triple where
  pre : Pt
  pt : Pt
  post : Pt
deriving DecidableEq, Repr

/-- Apply an affine matrix to all three control points of a triple. -/
def transformTriple (m : Mat) (t : Triple) : Triple :=
  ⟨applyMat m t.pre, applyMat m t.pt, applyMat m t.post⟩

/-- Midpoint of two points, for the De Casteljau split at parameter 0.5. -/
def midPt (p q : Pt) : Pt :=
  ⟨(p.x + q.x) / 2, (p.y + q.y) / 2⟩

/-- Squared distance of `q` from the chord through `a` and `b` (squared
distance to `a` when the chord is degenerate). Models the chord-deviation
measure `bezier.maxdist` of the host library, which the spec describes as the
maximum deviation of the interior control points from the chord; the squared
form compares against the squared tolerance equivalently, since both sides
are nonnegative. -/
def distSqToChord (a b q : Pt) : ℚ :=
  let dx := b.x - a.x
  let dy := b.y - a.y
  if dx = 0 ∧ dy = 0 then (q.x - a.x) ^ 2 + (q.y - a.y) ^ 2
  else (dx * (q.y - a.y) - dy * (q.x - a.x)) ^ 2 / (dx ^ 2 + dy ^ 2)

/-- Squared `bezier.maxdist` of the cubic `(p0, p1, p2, p3)`: the larger of
the two control points' squared chord deviations. -/
def maxdistSq (p0 p1 p2 p3 : Pt) : ℚ :=
  max (distSqToChord p0 p3 p1) (distSqToChord p0 p3 p2)

/-- Fallback triple for out-of-range indexing (never reached at the indices
the subdivision loop uses). -/
def getTriple (sp : List Triple) (i : Nat) : Triple :=
  sp.getD i ⟨⟨0, 0⟩, ⟨0, 0⟩, ⟨0, 0⟩⟩

/-- One splitting step of `subdivide_cubic_path` (source lines 136-140):
`bezier.beziersplitatt(b, 0.5)` gives the two half-cubics
`one = (p0, m01, m012, m0123)` and `two = (m0123, m123, m23, p3)`; the source
then sets `sp[i-1][2] = one[1]`, `sp[i][0] = two[2]` and inserts
`[one[2], one[3], two[1]]` at position `i` (`sp[i:1] = [p]`). -/
def subdivideStep (sp : List Triple) (i : Nat) : List Triple :=
  let t0 := getTriple sp (i - 1)
  let t1 := getTriple sp i
  let p0 := t0.pt
  let p1 := t0.post
  let p2 := t1.pre
  let p3 := t1.pt
  let m01 := midPt p0 p1
  let m12 := midPt p1 p2
  let m23 := midPt p2 p3
  let m012 := midPt m01 m12
  let m123 := midPt m12 m23
  let m0123 := midPt m012 m123
  let sp1 := sp.set (i - 1) { t0 with post := m01 }
  let sp2 := sp1.set i { t1 with pre := m23 }
  sp2.take i ++ [⟨m012, m0123, m123⟩] ++ sp2.drop i

/-- The loop of `subdivide_cubic_path` (source lines 118-140) over one
subpath: at cursor `i`, stop when `i >= len(sp)`; advance while the cubic
between `sp[i-1]` and `sp[i]` deviates at most `flat` from its chord
(`bezier.maxdist(b) > flat` squared on both sides here); otherwise split at
0.5 in place and re-test at the same `i`. The source recursion is
tolerance-driven with no depth cap (spec section 4.2); `fuel` bounds the
executable model, one unit per loop step. -/
def subdivideAux (flat : ℚ) : Nat → Nat → List Triple → List Triple
  | 0, _, sp => sp
  | fuel + 1, i, sp =>
    if i ≥ sp.length then sp
    else
      let t0 := getTriple sp (i - 1)
      let t1 := getTriple sp i
      if maxdistSq t0.pt t0.post t1.pre t1.pt > flat ^ 2 then
        subdivideAux flat fuel i (subdivideStep sp i)
      else
        subdivideAux flat fuel (i + 1) sp

/-- Source `subdivide_cubic_path(sp, flat, i=1)`. -/
def subdivide_cubic_path (flat : ℚ) (fuel : Nat) (sp : List Triple) : List Triple :=
  subdivideAux flat fuel 1 sp

/-- Source `plot_path` up to point extraction (lines 865-898): the parsed
path `p` is a list of subpaths of control triples; an empty parse returns at
once (line 872). Line 880, `Path(p).transform(Transform(matTransform)).to_arrays()`,
builds a transformed copy of the path whose result is not assigned to
anything (the `_` here), so the control points handed to
`subdivide_cubic_path` are the untransformed ones; the flattened output is
the `csp[1]` point of every triple in document order. -/
def plot_path_points (p : List (List Triple)) (mat : Mat) (flat : ℚ) (fuel : Nat) : List Pt :=
  if p = [] then []
  else
    let _ := p.map (fun sp => sp.map (transformTriple mat))
    ((p.map (subdivide_cubic_path flat fuel)).map (fun sp => sp.map Triple.pt)).flatten

/-- Modelled from the spec (section 4.2, for comparison with
`plot_path_points`): "apply `transform` to every control point first", then
subdivide each subpath and emit the transformed points. -/
def plot_path_points_spec (p : List (List Triple)) (mat : Mat) (flat : ℚ) (fuel : Nat) :
    List Pt :=
  if p = [] then []
  else
    let q := p.map (fun sp => sp.map (transformTriple mat))
    ((q.map (subdivide_cubic_path flat fuel)).map (fun sp => sp.map Triple.pt)).flatten

/-- The `CubicSuperPath` of the straight path `M 0,0 L 1,0`: a single subpath
of two triples whose control points coincide with the endpoints (a line has
no curvature to subdivide). -/
def lineCSP : List (List Triple) :=
  [[⟨⟨0, 0⟩, ⟨0, 0⟩, ⟨0, 0⟩⟩, ⟨⟨1, 0⟩, ⟨1, 0⟩, ⟨1, 0⟩⟩]]

/-- The transform `scale(2, 2)`. -/
def matScale2 : Mat := ⟨2, 0, 0, 0, 2, 0⟩

/-- Python truncation toward zero, the effect of `"%d" %` on a float: the
integer part of a rational. -/
def pyTrunc (q : ℚ) : Int :=
  q.num.tdiv q.den

/-- Which output backend the job runs on: `lu` is the network device
(`self.LU`), `gf` the G-code file (`self.GF`). The source keeps both as
booleans but sets exactly one per job (`effect`, lines 234-280). -/
inductive Mode
  | lu
  | gf
deriving DecidableEq, Repr

/-- The slice of the plotter object state `plot_line` reads and writes:
backend mode, pen state `pen_is_up`, current target `(fX, fY)`, previous
point `(fPrevX, fPrevY)` (`none` before the first point; the source sets both
coordinates together), node counter, and the cumulative delta totals
`svg_total_delta_X/Y`. -/
structure PState where
  mode : Mode
  penIsUp : Bool
  fX : ℚ
  fY : ℚ
  fPrev : Option (ℚ × ℚ)
  nodeCount : Nat
  totalX : ℚ
  totalY : ℚ
deriving DecidableEq, Repr

/-- The coordinate-move command string `'G01 X'+("%d" % xt)+' Y'+("%d" % yt)`
(source lines 954-955 and 962-969). -/
def moveStr (xt yt : ℚ) : String :=
  "G01 X" ++ toString (pyTrunc xt) ++ " Y" ++ toString (pyTrunc yt)

/-- The command strings one iteration of the `plot_line` emission loop hands
to `do_command` (source lines 950-970), given the backend, the pen state and
`xt = self.svg_total_delta_X`, `yt = -self.svg_total_delta_Y`. On the network
backend: a coordinate move when `xt*yt != 0`, else the pen-lift `G01 Z1000`
("such a patch", line 953). On the file backend: one `... Z0` move when the
pen is down; when the pen is up, a `... Z1000` move sent at line 967 followed
by a `... Z0` move sent at line 970. -/
def plotLineCmds (mode : Mode) (penIsUp : Bool) (xt yt : ℚ) : List String :=
  match mode with
  | Mode.lu =>
    if xt * yt ≠ 0 then [moveStr xt yt] else ["G01 Z1000"]
  | Mode.gf =>
    if penIsUp then [moveStr xt yt ++ " Z1000", moveStr xt yt ++ " Z0"]
    else [moveStr xt yt ++ " Z0"]

/-- The `while ((abs(n_delta_x) > 0) or (abs(n_delta_y) > 0))` loop of
`plot_line` (source lines 943-976): each iteration consumes the whole
remaining delta (`xd = n_delta_x`, `yd = n_delta_y`), emits its commands from
the totals as they stand, adds the delta to the totals, and subtracts the
consumed delta, which zeroes it and ends the loop. -/
def plotLineLoop (dx dy : ℚ) (st : PState) : List String × PState :=
  if h : 0 < |dx| ∨ 0 < |dy| then
    let xd := dx
    let yd := dy
    let cmds := plotLineCmds st.mode st.penIsUp st.totalX (-st.totalY)
    let st1 := { st with totalX := st.totalX + xd, totalY := st.totalY + yd }
    let rest := plotLineLoop (dx - xd) (dy - yd) st1
    (cmds ++ rest.1, rest.2)
  else ([], st)
termination_by (if dx = 0 ∧ dy = 0 then 0 else 1 : Nat)
decreasing_by
  have hne : ¬(dx = 0 ∧ dy = 0) := by
    rintro ⟨rfl, rfl⟩
    simp at h
  simp [sub_self, hne]

/-- Source `plot_line` (lines 933-976): return at once when `fPrevX is None`
(line 934); compute the delta to the current target; when its Euclidean
length is positive (`sqrt(dx^2+dy^2) > 0`, equivalently `dx^2 + dy^2 > 0`),
count the node and run the emission loop. Returns the emitted command strings
and the updated state. -/
def plot_line (st : PState) : List String × PState :=
  match st.fPrev with
  | none => ([], st)
  | some p =>
    let dx := st.fX - p.1
    let dy := st.fY - p.2
    if 0 < dx ^ 2 + dy ^ 2 then
      plotLineLoop dx dy { st with nodeCount := st.nodeCount + 1 }
    else ([], st)

/-- A network-mode state whose x-delta total is 0, so the total product is 0,
with a pending nonzero delta. -/
def lusState0 : PState :=
  ⟨Mode.lu, true, 5, 5, some (0, 0), 0, 0, 7⟩

/-- A file-mode, pen-up state with nonzero totals and a pending delta. -/
def gfState0 : PState :=
  ⟨Mode.gf, true, 3, 4, some (1, 1), 0, 10, 20⟩

/-- A step of a path description string, abstracting the `d` attribute the
circle/ellipse branch builds (exact `%f` float rendering elided). -/
inductive DCmd
  | moveTo (x y : ℚ)
  | arcTo (rx ry x y : ℚ)
deriving DecidableEq, Repr

/-- The two 180-degree arcs of the circle/ellipse conversion (source lines
714-722): `M x1,cy  A rx,ry 0 1 0 x2,cy  A rx,ry 0 1 0 x1,cy` with
`x1 = cx - rx`, `x2 = cx + rx`. -/
def circleArcs (rx ry cx cy : ℚ) : List DCmd :=
  let x1 := cx - rx
  let x2 := cx + rx
  [DCmd.moveTo x1 cy, DCmd.arcTo rx ry x2 cy, DCmd.arcTo rx ry x1 cy]

/-- The circle/ellipse branch of `recursively_traverse_svg` (source lines
682-735). The zero-radius guard at lines 709-710 reads
`if rx == 0 or ry == 0: pass` - its body is `pass`, so both branches fall
through to the same construction: the node is converted and plotted either
way. Returns the path the branch hands to `plot_path` (a circle passes
`rx = ry = r`). -/
def circle_ellipse_to_path (rx ry cx cy : ℚ) : Option (List DCmd) :=
  if rx = 0 ∨ ry = 0 then
    some (circleArcs rx ry cx cy)
  else
    some (circleArcs rx ry cx cy)

/-- Modelled from the spec (section 4.1, for comparison with
`circle_ellipse_to_path`): "zero radius is skipped (no path emitted)". -/
def circle_ellipse_to_path_spec (rx ry cx cy : ℚ) : Option (List DCmd) :=
  if rx = 0 ∨ ry = 0 then none
  else some (circleArcs rx ry cx cy)

/-- The polyline branch of `recursively_traverse_svg` (source lines
597-637). The guards `if pl == '': pass` (line 610) and
`if not len(pa): pass` (line 616) have `pass` bodies and skip nothing, so an
empty point list reaches `d = "M " + pa[0]` (line 622), where indexing the
empty list raises `IndexError`. Returns the `d` string built from the
whitespace-split points otherwise. -/
def polyline_to_d (ptsAttr : String) : Except PyErr String :=
  let pl := pyStrip ptsAttr
  let pa := pySplitWs pl
  match pa with
  | [] => Except.error PyErr.indexError
  | p0 :: rest => Except.ok (rest.foldl (fun d q => d ++ " L " ++ q) ("M " ++ p0))

/-- The polygon branch (source lines 639-680): the same construction as the
polyline branch with an explicit closing `" Z"` appended (line 667),
including the same `pass` guards and the same `pa[0]` `IndexError` on an
empty point list. -/
def polygon_to_d (ptsAttr : String) : Except PyErr String :=
  match polyline_to_d ptsAttr with
  | Except.ok d => Except.ok (d ++ " Z")
  | Except.error e => Except.error e

/-- The call `self.warnings.has_key(key)` (source lines 749, 757 and 789)
under Python 3: `dict` has no attribute `has_key` (the method was removed in
Python 3), so the attribute lookup raises `AttributeError` before any
membership test; the warnings dictionary and key are irrelevant. -/
def warnings_has_key (_w : List (String × Nat)) (_key : String) : Except PyErr Bool :=
  Except.error PyErr.attributeError

/-- The element tags relevant to the warning behaviour of
`recursively_traverse_svg`: the silently ignored administrative tags (lines
736-787), the unsupported drawable tags `text` and `image` (lines 748-763),
and the catch-all `else` branch (lines 788-794) for any other tag. -/
inductive STag
  | metadata
  | defs
  | namedview
  | lus
  | title
  | desc
  | pat
  | radialGradient
  | linearGradient
  | styleTag
  | cursorTag
  | colorProfile
  | nonStringTag
  | text
  | image
  | other (s : String)
deriving DecidableEq, Repr

/-- One node's warning handling in `recursively_traverse_svg`: ignored tags
do nothing; for `text` (lines 748-755), `image` (lines 756-763) and
unrecognized tags (lines 788-794) the source asks `self.warnings.has_key(...)`
and, were the key absent, would report once and record `warnings[key] = 1`.
Returns the updated warning dictionary, or the exception the lookup raises. -/
def traverse_warn_step (w : List (String × Nat)) (t : STag) :
    Except PyErr (List (String × Nat)) :=
  match t with
  | STag.text =>
    match warnings_has_key w "text" with
    | Except.error e => Except.error e
    | Except.ok b => if b then Except.ok w else Except.ok (("text", 1) :: w)
  | STag.image =>
    match warnings_has_key w "image" with
    | Except.error e => Except.error e
    | Except.ok b => if b then Except.ok w else Except.ok (("image", 1) :: w)
  | STag.other s =>
    match warnings_has_key w s with
    | Except.error e => Except.error e
    | Except.ok b => if b then Except.ok w else Except.ok ((s, 1) :: w)
  | _ => Except.ok w

/-- Traversal of a sequence of such nodes: an exception raised at one node
propagates (there is no handler in `recursively_traverse_svg` or above it in
`plot_to_lus` besides a `finally: pass`, lines 436-438), aborting the walk. -/
def traverse_warnings (w : List (String × Nat)) : List STag → Except PyErr (List (String × Nat))
  | [] => Except.ok w
  | t :: ts =>
    match traverse_warn_step w t with
    | Except.error e => Except.error e
    | Except.ok w1 => traverse_warnings w1 ts

/-- Parse the digits of a nonempty decimal literal. -/
def parseDigitsOpt (l : List Char) : Option Nat :=
  if pyIsDigitStr l then some (digitsToNat l) else none

/-- Python `int(s)` on a string: strip whitespace, allow one leading sign,
then require a nonempty digit run; anything else raises `ValueError`. -/
def pyIntParse (s : String) : Option Int :=
  match (pyStrip s).data with
  | '-' :: rest => (parseDigitsOpt rest).map (fun n => -(n : Int))
  | '+' :: rest => (parseDigitsOpt rest).map (fun n => (n : Int))
  | t => (parseDigitsOpt t).map (fun n => (n : Int))

/-- Python `int(node.get(attr))`: a missing attribute gives `None`, and
`int(None)` raises `TypeError`; an unparsable string raises `ValueError`. -/
def pyIntOpt (o : Option String) : Except PyErr Int :=
  match o with
  | none => Except.error PyErr.typeError
  | some s =>
    match pyIntParse s with
    | none => Except.error PyErr.valueError
    | some n => Except.ok n

/-- The six persisted progress-state counters (in-memory fields of the
plotter object, all initialized to 0 in `__init__`, lines 203-210). -/
structure LusFields where
  layer : Int
  node : Int
  lastpath : Int
  lastpathnc : Int
  totaldeltax : Int
  totaldeltay : Int
deriving DecidableEq, Repr

/-- The persisted attributes of the `lus` marker element, each possibly
absent. -/
structure LusNodeAttrs where
  layer : Option String
  node : Option String
  lastpath : Option String
  lastpathnc : Option String
  totaldeltax : Option String
  totaldeltay : Option String
deriving DecidableEq, Repr

/-- The `except ValueError` recovery of `recursive_lus_data_scan` (source
lines 329-334): the four guarded attributes of the marker element are reset
to `"0"` and `svg_data_read` is set; the in-memory fields keep whatever was
assigned before the exception. -/
def recoverScan (st : LusFields) (a : LusNodeAttrs) : LusFields × LusNodeAttrs × Bool :=
  (st, { a with lastpath := some "0", lastpathnc := some "0",
                totaldeltax := some "0", totaldeltay := some "0" }, true)

/-- The marker-element branch of `recursive_lus_data_scan` (source lines
318-334) on one `lus` node: `layer` and `node` are parsed at lines 320-321,
outside the `try`, so their `ValueError`/`TypeError` propagates and aborts
the job; the remaining four fields are parsed inside a `try` whose handler
catches only `ValueError` (a `TypeError` from a missing attribute still
propagates). Returns the in-memory fields, the node's attributes and the
`svg_data_read` flag, or the uncaught exception. -/
def scan_lus_node (st0 : LusFields) (a : LusNodeAttrs) :
    Except PyErr (LusFields × LusNodeAttrs × Bool) :=
  match pyIntOpt a.layer with
  | Except.error e => Except.error e
  | Except.ok vLayer =>
  match pyIntOpt a.node with
  | Except.error e => Except.error e
  | Except.ok vNode =>
  let st1 := { st0 with layer := vLayer, node := vNode }
  match pyIntOpt a.lastpath with
  | Except.error PyErr.valueError => Except.ok (recoverScan st1 a)
  | Except.error e => Except.error e
  | Except.ok v1 =>
  let st2 := { st1 with lastpath := v1 }
  match pyIntOpt a.lastpathnc with
  | Except.error PyErr.valueError => Except.ok (recoverScan st2 a)
  | Except.error e => Except.error e
  | Except.ok v2 =>
  let st3 := { st2 with lastpathnc := v2 }
  match pyIntOpt a.totaldeltax with
  | Except.error PyErr.valueError => Except.ok (recoverScan st3 a)
  | Except.error e => Except.error e
  | Except.ok v3 =>
  let st4 := { st3 with totaldeltax := v3 }
  match pyIntOpt a.totaldeltay with
  | Except.error PyErr.valueError => Except.ok (recoverScan st4 a)
  | Except.error e => Except.error e
  | Except.ok v4 =>
  Except.ok ({ st4 with totaldeltay := v4 }, a, true)

/-- The tabs `effect` dispatches on (source lines 234-280): the three
network tabs (`splash` = plot, `manual`, `layers`) and the G-code file tab. -/
inductive Tab
  | splash
  | manual
  | layers
  | gcode
deriving DecidableEq, Repr

/-- Which resources a run of `effect` acquired and released. -/
structure EffectTrace where
  sockOpened : Bool
  sockClosed : Bool
  fileOpened : Bool
  fileClosed : Bool
deriving DecidableEq, Repr

/-- Resource handling of `effect` (source lines 225-293). Network tabs create
and connect a socket (lines 236-237, 247-248, 253-254) and close it at line
288, on the straight-line path only: the close is not in a `finally` and
`plot_to_lus`'s own `try ... finally: pass` re-raises, so an exception from
the tab body propagates past line 288 and the socket is left open. The gcode
tab opens the output file in a `with` block (line 271), which closes the
file on normal and exceptional exit alike. `raises` abstracts whether the tab
body raised; the second component is the exception that escaped `effect`. -/
def effect_run (tab : Tab) (raises : Bool) : EffectTrace × Option PyErr :=
  match tab with
  | Tab.gcode =>
    if raises then (⟨false, false, true, true⟩, some PyErr.indexError)
    else (⟨false, false, true, true⟩, none)
  | _ =>
    if raises then (⟨true, false, false, false⟩, some PyErr.indexError)
    else (⟨true, true, false, false⟩, none)

/-- Network-mode `do_command` (source lines 980-998) together with
`send_cmd` (lines 1067-1074): each send frames the command as
`cmd + '\r\n\0'` and writes it to the socket; nothing is sent when the
connection failed (and `get_resp` then returns `None`, whose indexing raises
`TypeError`, swallowed by the bare `except`). `resp` is the first nonempty
response the read loop at lines 988-990 yields; when its first character is
not `'o'`, the same framed command is sent once more (line 995) after a
`time.sleep(0.5)` backoff, and the result of that retransmission is never
examined. Returns the list of frames written to the socket. -/
def do_command_lu (connected : Bool) (cmd : String) (resp : String) : List String :=
  if connected then
    if pyFront resp = 'o' then [cmd ++ "\r\n\x00"]
    else [cmd ++ "\r\n\x00", cmd ++ "\r\n\x00"]
  else []

/-- C1: the claim says the accumulated transform is applied to every control
point before subdivision, so that a non-identity transform changes the
flattened output. The code belies it: line 880 computes the transformed path
but discards the result, so the straight path `M 0,0 L 1,0` under
`scale(2,2)` flattens to the untransformed points `(0,0), (1,0)` - identical
to the identity-transform output - while the spec's algorithm (transform
first) would give `(0,0), (2,0)`. -/
theorem plot_path_transform_discarded :
    plot_path_points lineCSP matScale2 (1/10) 8 = [⟨0, 0⟩, ⟨1, 0⟩] ∧
    plot_path_points lineCSP matScale2 (1/10) 8 =
      plot_path_points lineCSP matIdentity (1/10) 8 ∧
    plot_path_points_spec lineCSP matScale2 (1/10) 8 = [⟨0, 0⟩, ⟨2, 0⟩] ∧
    plot_path_points lineCSP matScale2 (1/10) 8 ≠
      plot_path_points_spec lineCSP matScale2 (1/10) 8 := by
  have hm1 : maxdistSq ⟨0, 0⟩ ⟨0, 0⟩ ⟨1, 0⟩ ⟨1, 0⟩ = 0 := by
    norm_num [maxdistSq, distSqToChord]
  have hm2 : maxdistSq ⟨0, 0⟩ ⟨0, 0⟩ ⟨2, 0⟩ ⟨2, 0⟩ = 0 := by
    norm_num [maxdistSq, distSqToChord]
  have hs1 : subdivide_cubic_path ((10:ℚ))⁻¹ 8
      [⟨⟨0, 0⟩, ⟨0, 0⟩, ⟨0, 0⟩⟩, ⟨⟨1, 0⟩, ⟨1, 0⟩, ⟨1, 0⟩⟩] =
      [⟨⟨0, 0⟩, ⟨0, 0⟩, ⟨0, 0⟩⟩, ⟨⟨1, 0⟩, ⟨1, 0⟩, ⟨1, 0⟩⟩] := by
    norm_num [subdivide_cubic_path, subdivideAux, getTriple, hm1]
  have hs2 : subdivide_cubic_path ((10:ℚ))⁻¹ 8
      [⟨⟨0, 0⟩, ⟨0, 0⟩, ⟨0, 0⟩⟩, ⟨⟨2, 0⟩, ⟨2, 0⟩, ⟨2, 0⟩⟩] =
      [⟨⟨0, 0⟩, ⟨0, 0⟩, ⟨0, 0⟩⟩, ⟨⟨2, 0⟩, ⟨2, 0⟩, ⟨2, 0⟩⟩] := by
    norm_num [subdivide_cubic_path, subdivideAux, getTriple, hm2]
  have htr : List.map (transformTriple matScale2)
      [⟨⟨0, 0⟩, ⟨0, 0⟩, ⟨0, 0⟩⟩, ⟨⟨1, 0⟩, ⟨1, 0⟩, ⟨1, 0⟩⟩] =
      [⟨⟨0, 0⟩, ⟨0, 0⟩, ⟨0, 0⟩⟩, ⟨⟨2, 0⟩, ⟨2, 0⟩, ⟨2, 0⟩⟩] := by
    norm_num [transformTriple, applyMat, matScale2]
  have h1 : plot_path_points lineCSP matScale2 (1/10) 8 = [⟨0, 0⟩, ⟨1, 0⟩] := by
    simp [plot_path_points, lineCSP, hs1]
  have h2 : plot_path_points lineCSP matIdentity (1/10) 8 = [⟨0, 0⟩, ⟨1, 0⟩] := by
    simp [plot_path_points, lineCSP, hs1]
  have h3 : plot_path_points_spec lineCSP matScale2 (1/10) 8 = [⟨0, 0⟩, ⟨2, 0⟩] := by
    simp [plot_path_points_spec, lineCSP, htr, hs2]
  refine ⟨h1, h1.trans h2.symm, h3, ?_⟩
  rw [h1, h3]
  simp

/-- C2: the claim says each distinct unsupported tag produces exactly one
warning and traversal continues. Under Python 3 the membership test
`self.warnings.has_key(...)` raises `AttributeError` (the method no longer
exists), so the first text, image or unrecognized node aborts the traversal
with an exception and no warning dictionary entry is ever made; ignored
administrative tags still pass through unharmed. -/
theorem unsupported_tag_warning_aborts :
    traverse_warnings [] [STag.text, STag.text] = Except.error PyErr.attributeError ∧
    traverse_warnings [] [STag.image] = Except.error PyErr.attributeError ∧
    traverse_warnings [] [STag.other "flowRoot"] = Except.error PyErr.attributeError ∧
    traverse_warnings [] [STag.metadata, STag.defs] = Except.ok [] := by
  decide

/-- C4: when the first character of the received response is not the
positive-acknowledgement marker `'o'`, `do_command` writes the identically
framed command to the socket exactly twice - the original send and one
retransmission - and nothing further. -/
theorem do_command_retransmits_once (cmd resp : String)
    (hne : resp ≠ "") (hnak : pyFront resp ≠ 'o') :
    do_command_lu true cmd resp = [cmd ++ "\r\n\x00", cmd ++ "\r\n\x00"] := by
  simp [do_command_lu, hnak]

/-- Witness for C4 at the timeout sentinel response `Time_out`. -/
theorem do_command_retransmits_once_witness :
    ("Time_out" : String) ≠ "" ∧ pyFront "Time_out" ≠ 'o' ∧
    do_command_lu true "G01 X10 Y0" "Time_out" =
      ["G01 X10 Y0" ++ "\r\n\x00", "G01 X10 Y0" ++ "\r\n\x00"] :=
  ⟨by decide, by decide,
    do_command_retransmits_once "G01 X10 Y0" "Time_out" (by decide) (by decide)⟩

/-- C5: the claim says a zero-radius circle or ellipse is skipped with no
path emitted. The zero-radius guard's body is `pass`, so the branch still
emits the degenerate two-arc path (and goes on to count and plot it); the
spec's behaviour would emit nothing. -/
theorem circle_zero_radius_not_skipped :
    circle_ellipse_to_path 0 0 5 5 =
      some [DCmd.moveTo 5 5, DCmd.arcTo 0 0 5 5, DCmd.arcTo 0 0 5 5] ∧
    circle_ellipse_to_path_spec 0 0 5 5 = none := by
  norm_num [circle_ellipse_to_path, circle_ellipse_to_path_spec, circleArcs]

/-- C6: the claim says an empty points attribute makes the polyline/polygon
silently skipped. The emptiness guards are `pass` no-ops, so `pa[0]` on the
empty split raises `IndexError` and the job aborts; a nonempty attribute
builds the expected path string. -/
theorem polyline_empty_points_raises :
    polyline_to_d "" = Except.error PyErr.indexError ∧
    polygon_to_d "   " = Except.error PyErr.indexError ∧
    polyline_to_d "0,0 1,1" = Except.ok "M 0,0 L 1,1" ∧
    polygon_to_d "0,0 1,1" = Except.ok "M 0,0 L 1,1 Z" := by
  decide

/-- C7: the claim says any unparsable persisted field resets all six fields
to zero without aborting. The `layer` attribute is parsed outside the `try`,
so `layer="abc"` raises an uncaught `ValueError` and the job aborts; and when
a later guarded field (here `lastpathnc="x"`) is unparsable, the fields
parsed before it keep the parsed values (`lastpath = 7`), only the node's
attributes being reset to `"0"`. -/
theorem lus_scan_unparsable_aborts :
    scan_lus_node ⟨0, 0, 0, 0, 0, 0⟩
      ⟨some "abc", some "0", some "0", some "0", some "0", some "0"⟩ =
        Except.error PyErr.valueError ∧
    scan_lus_node ⟨0, 0, 0, 0, 0, 0⟩
      ⟨some "1", some "2", some "7", some "x", some "0", some "0"⟩ =
        Except.ok (⟨1, 2, 7, 0, 0, 0⟩,
          ⟨some "1", some "2", some "0", some "0", some "0", some "0"⟩, true) := by
  decide

/-- Counterexample to C8 as stated: an exception raised by the traversal in
network mode (`splash` tab) escapes `effect` before line 288, so the job ends
with the socket opened but not closed. -/
theorem effect_socket_leak_cex :
    (effect_run Tab.splash true).1.sockOpened = true ∧
    (effect_run Tab.splash true).1.sockClosed = false ∧
    (effect_run Tab.splash true).2 = some PyErr.indexError := by
  decide

/-- C8 as amended: the output file, opened in a `with` block, is closed on
every exit path; the network socket is closed on normal completion of each
network tab, but an exception from the tab body leaves it unclosed. -/
theorem effect_resource_closure_amended :
    (∀ r, (effect_run Tab.gcode r).1.fileClosed = true) ∧
    (effect_run Tab.splash false).1.sockClosed = true ∧
    (effect_run Tab.manual false).1.sockClosed = true ∧
    (effect_run Tab.layers false).1.sockClosed = true ∧
    (effect_run Tab.splash true).1.sockClosed = false ∧
    (effect_run Tab.manual true).1.sockClosed = false ∧
    (effect_run Tab.layers true).1.sockClosed = false := by
  decide

/-- Base case of the emission loop: a zero remaining delta emits nothing. -/
theorem plotLineLoop_zero (st : PState) : plotLineLoop 0 0 st = ([], st) := by
  rw [plotLineLoop]
  simp

/-- One pass of the emission loop consumes the whole delta: it emits the
commands computed from the incoming totals and adds the delta to them. -/
theorem plotLineLoop_step (dx dy : ℚ) (st : PState) (h : 0 < |dx| ∨ 0 < |dy|) :
    plotLineLoop dx dy st =
      (plotLineCmds st.mode st.penIsUp st.totalX (-st.totalY),
       { st with totalX := st.totalX + dx, totalY := st.totalY + dy }) := by
  rw [plotLineLoop, dif_pos h]
  simp [sub_self, plotLineLoop_zero]

/-- A positive sum of squares forces one coordinate to have positive absolute
value (the form of the loop guard). -/
theorem sq_sum_pos_elim (a b : ℚ) (h : 0 < a ^ 2 + b ^ 2) : 0 < |a| ∨ 0 < |b| := by
  rcases eq_or_ne a 0 with rfl | ha
  · right
    have hb : b ≠ 0 := by
      rintro rfl
      norm_num at h
    exact abs_pos.mpr hb
  · left
    exact abs_pos.mpr ha

/-- A non-positive sum of squares forces both coordinates to vanish. -/
theorem sq_sum_not_pos (a b : ℚ) (h : ¬ 0 < a ^ 2 + b ^ 2) : a = 0 ∧ b = 0 := by
  constructor
  · by_contra ha
    exact h (lt_of_lt_of_le (pow_pos (abs_pos.mpr ha) 2) (by nlinarith [sq_nonneg b, sq_abs a]))
  · by_contra hb
    exact h (lt_of_lt_of_le (pow_pos (abs_pos.mpr hb) 2) (by nlinarith [sq_nonneg a, sq_abs b]))

/-- C3: when `plot_line` runs on the network backend and the product of the
cumulative x-delta total and the cumulative y-delta total is exactly zero,
every instruction it emits is the pen-lift `G01 Z1000` rather than a
coordinate move (the source tests `xt*yt != 0` with `xt` the x total and
`yt` the negated y total, whose product vanishes exactly when the claim's
does). -/
theorem plot_line_zero_total_product_penlift (st : PState)
    (hm : st.mode = Mode.lu) (hz : st.totalX * st.totalY = 0) :
    ∀ c ∈ (plot_line st).1, c = "G01 Z1000" := by
  intro c hc
  rw [plot_line] at hc
  cases hp : st.fPrev with
  | none => rw [hp] at hc; simp at hc
  | some p =>
    simp only [hp] at hc
    by_cases hd : 0 < (st.fX - p.1) ^ 2 + (st.fY - p.2) ^ 2
    · rw [if_pos hd, plotLineLoop_step _ _ _ (sq_sum_pos_elim _ _ hd)] at hc
      simp only [plotLineCmds, hm] at hc
      have hzz : st.totalX * -st.totalY = 0 := by
        rw [mul_neg, hz, neg_zero]
      rw [if_neg (by simp [hzz])] at hc
      simpa using hc
    · rw [if_neg hd] at hc
      simp at hc

/-- Witness for C3: the network-mode state with x total 0 and a pending
nonzero delta satisfies the hypotheses; its emission is all pen-lift. -/
theorem plot_line_penlift_witness :
    lusState0.mode = Mode.lu ∧ lusState0.totalX * lusState0.totalY = 0 ∧
    ∀ c ∈ (plot_line lusState0).1, c = "G01 Z1000" :=
  ⟨rfl, by norm_num [lusState0],
    plot_line_zero_total_product_penlift lusState0 rfl (by norm_num [lusState0])⟩

/-- C10: every command `plot_line` emits is either the degenerate pen-lift or
a move encoding the totals as they stood before the current segment's delta
was added, with the Y total negated; the state afterwards carries the totals
advanced by exactly that delta, so the coordinates sent belong to the pen
position before the motion, not its endpoint. -/
theorem plot_line_move_encodes_pre_totals (st : PState) (p : ℚ × ℚ)
    (h : st.fPrev = some p) :
    ((plot_line st).2.totalX = st.totalX + (st.fX - p.1) ∧
     (plot_line st).2.totalY = st.totalY + (st.fY - p.2)) ∧
    ∀ c ∈ (plot_line st).1,
      c = "G01 Z1000" ∨
      c = moveStr st.totalX (-st.totalY) ∨
      c = moveStr st.totalX (-st.totalY) ++ " Z0" ∨
      c = moveStr st.totalX (-st.totalY) ++ " Z1000" := by
  simp only [plot_line, h]
  by_cases hd : 0 < (st.fX - p.1) ^ 2 + (st.fY - p.2) ^ 2
  · rw [if_pos hd, plotLineLoop_step _ _ _ (sq_sum_pos_elim _ _ hd)]
    refine ⟨⟨rfl, rfl⟩, ?_⟩
    intro c hc
    cases hmode : st.mode <;> simp only [plotLineCmds, hmode] at hc
    · by_cases hp0 : st.totalX * -st.totalY ≠ 0
      · rw [if_pos hp0] at hc
        simp at hc
        tauto
      · rw [if_neg hp0] at hc
        simp at hc
        tauto
    · by_cases hpen : st.penIsUp = true
      · rw [if_pos hpen] at hc
        simp at hc
        tauto
      · rw [if_neg hpen] at hc
        simp at hc
        tauto
  · rw [if_neg hd]
    obtain ⟨h1, h2⟩ := sq_sum_not_pos _ _ hd
    refine ⟨⟨?_, ?_⟩, ?_⟩
    · rw [h1, add_zero]
    · rw [h2, add_zero]
    · intro c hc
      simp at hc

/-- Witness for C10 at the file-mode, pen-up state with totals (10, 20). -/
theorem plot_line_encodes_witness :
    gfState0.fPrev = some (1, 1) ∧
    (((plot_line gfState0).2.totalX = gfState0.totalX + (gfState0.fX - ((1 : ℚ), (1 : ℚ)).1) ∧
      (plot_line gfState0).2.totalY = gfState0.totalY + (gfState0.fY - ((1 : ℚ), (1 : ℚ)).2)) ∧
     ∀ c ∈ (plot_line gfState0).1,
       c = "G01 Z1000" ∨
       c = moveStr gfState0.totalX (-gfState0.totalY) ∨
       c = moveStr gfState0.totalX (-gfState0.totalY) ++ " Z0" ∨
       c = moveStr gfState0.totalX (-gfState0.totalY) ++ " Z1000") :=
  ⟨rfl, plot_line_move_encodes_pre_totals gfState0 (1, 1) rfl⟩

/-- A prefix of `s` of length `pos` is all digits exactly when `pos` does not
exceed the length of the leading digit run of `s`. -/
theorem take_all_digit_iff (s : List Char) :
    ∀ pos, pos ≤ s.length →
      ((s.take pos).all Char.isDigit = true ↔ pos ≤ (s.takeWhile Char.isDigit).length) := by
  induction s with
  | nil =>
    intro pos hp
    simp only [List.length_nil, Nat.le_zero] at hp
    subst hp
    simp
  | cons c t ih =>
    intro pos hp
    cases pos with
    | zero => simp
    | succ q =>
      rw [List.take_succ_cons, List.all_cons, List.takeWhile_cons]
      by_cases hc : c.isDigit
      · simp only [hc, if_true, List.length_cons, Bool.true_and]
        rw [ih q (by simpa using hp)]
        omega
      · simp [hc]

/-- The `str.isdigit` test the scan loop makes on `s[:pos]`, for the in-range
positions the loop visits. -/
theorem pyIsDigitStr_take (s : List Char) (pos : Nat) (h1 : 1 ≤ pos) (h2 : pos ≤ s.length) :
    (pyIsDigitStr (s.take pos) = true ↔ pos ≤ (s.takeWhile Char.isDigit).length) := by
  have hlen : (s.take pos).length = pos := by
    rw [List.length_take]
    omega
  have hne : s.take pos ≠ [] := by
    intro hnil
    rw [hnil] at hlen
    simp at hlen
    omega
  rw [pyIsDigitStr, Bool.and_eq_true]
  simp only [hne, decide_eq_true_eq, ne_eq, not_false_eq_true, true_and]
  exact take_all_digit_iff s pos h2

/-- Every character of the leading digit run is a digit. -/
theorem takeWhile_digit_all (l : List Char) :
    (l.takeWhile Char.isDigit).all Char.isDigit = true := by
  induction l with
  | nil => rfl
  | cons c t ih =>
    rw [List.takeWhile_cons]
    by_cases hc : c.isDigit
    · simp [hc, ih]
    · simp [hc]

/-- Taking as many characters as the leading digit run is long recovers the
run itself. -/
theorem take_length_takeWhile (l : List Char) :
    l.take ((l.takeWhile Char.isDigit).length) = l.takeWhile Char.isDigit := by
  induction l with
  | nil => rfl
  | cons c t ih =>
    rw [List.takeWhile_cons]
    by_cases hc : c.isDigit
    · simp [hc, List.take_succ_cons, ih]
    · simp [hc]

/-- The scan loop computes the longest leading digit run when there is one,
and otherwise leaves `temp` (the sentinel) untouched: at position `pos` with
the `while`-bound fuel, the result is the digit run when `pos` is still
within it, else `temp`. -/
theorem dwplLoop_spec (s : List Char) :
    ∀ (fuel pos : Nat) (temp : List Char),
      1 ≤ pos → fuel + pos = s.length + 1 →
      dwplLoop s fuel pos temp =
        if pos ≤ (s.takeWhile Char.isDigit).length
        then s.take ((s.takeWhile Char.isDigit).length)
        else temp := by
  intro fuel
  induction fuel with
  | zero =>
    intro pos temp h1 h2
    have hL : (s.takeWhile Char.isDigit).length ≤ s.length :=
      (List.takeWhile_prefix Char.isDigit).length_le
    rw [dwplLoop, if_neg (by omega)]
  | succ f ih =>
    intro pos temp h1 h2
    have hps : pos ≤ s.length := by omega
    rw [dwplLoop]
    by_cases hd : pyIsDigitStr (s.take pos) = true
    · rw [if_pos hd]
      have hposL : pos ≤ (s.takeWhile Char.isDigit).length :=
        (pyIsDigitStr_take s pos h1 hps).mp hd
      rw [ih (pos + 1) (s.take pos) (by omega) (by omega)]
      by_cases hq : pos + 1 ≤ (s.takeWhile Char.isDigit).length
      · rw [if_pos hq, if_pos hposL]
      · have hpe : pos = (s.takeWhile Char.isDigit).length := by omega
        rw [if_neg hq, if_pos hposL, hpe]
    · rw [if_neg hd]
      have hnL : ¬ pos ≤ (s.takeWhile Char.isDigit).length := fun hle =>
        hd ((pyIsDigitStr_take s pos h1 hps).mpr hle)
      rw [if_neg hnL]

/-- Characterization of `do_we_plot_layer`: a label matches the selected
layer exactly when its left-stripped form starts with a nonempty digit run
whose numeric value is the selected layer number. -/
theorem do_we_plot_layer_char (n : Int) (label : String) :
    do_we_plot_layer n label = true ↔
      (leadingDigitRun label ≠ [] ∧ (digitsToNat (leadingDigitRun label) : Int) = n) := by
  rw [do_we_plot_layer, leadingDigitRun]
  set s := label.data.dropWhile Char.isWhitespace with hs
  rw [dwplLoop_spec s s.length 1 ['x'] (le_refl 1) (by omega)]
  by_cases h1 : 1 ≤ (s.takeWhile Char.isDigit).length
  · rw [if_pos h1, take_length_takeWhile]
    have hne : s.takeWhile Char.isDigit ≠ [] := by
      intro hnil
      rw [hnil] at h1
      simp at h1
    have hpd : pyIsDigitStr (s.takeWhile Char.isDigit) = true := by
      rw [pyIsDigitStr, Bool.and_eq_true]
      exact ⟨by simpa using hne, takeWhile_digit_all s⟩
    rw [if_pos hpd]
    simp [hne, eq_comm]
  · rw [if_neg h1]
    have hnil : s.takeWhile Char.isDigit = [] := by
      rcases List.eq_nil_or_concat (s.takeWhile Char.isDigit) with hn | ⟨l, a, hc⟩
      · exact hn
      · exfalso
        apply h1
        rw [hc]
        simp
    have hx : pyIsDigitStr ['x'] = false := by decide
    rw [if_neg (by simp [hx])]
    simp [hnil]

/-- C9: layer matching goes by the longest leading decimal-digit run of the
left-stripped label, parsed numerically: `"3abc"` and `"03"` both match
layer 3, a label with no leading digit matches no layer at all, and in
general a label matches exactly the numeric value of its leading digit
run. -/
theorem layer_selection_leading_digits :
    do_we_plot_layer 3 "3abc" = true ∧
    do_we_plot_layer 3 "03" = true ∧
    (∀ n : Int, do_we_plot_layer n "abc" = false) ∧
    (∀ (n : Int) (label : String),
      do_we_plot_layer n label = true ↔
        (leadingDigitRun label ≠ [] ∧ (digitsToNat (leadingDigitRun label) : Int) = n)) := by
  refine ⟨by decide, by decide, ?_, do_we_plot_layer_char⟩
  intro n
  cases hb : do_we_plot_layer n "abc" with
  | false => rfl
  | true =>
    exfalso
    have hch := (do_we_plot_layer_char n "abc").mp hb
    have hrun : leadingDigitRun "abc" = [] := by decide
    rw [hrun] at hch
    exact hch.1 rfl
